import Mathlib

/-
Verification of the vehicle line-crossing counter and the frame-processing
pipeline of the Vehicle-Detection-Counting repository.

The counting logic of `process_video` (src/project/car_detection.py, lines
72-76 and 104-117) is embedded as an explicit state-passing function
`observe` over a counter state; the per-frame detection filter (lines 95-98)
is embedded as `buildDetections`; the control flow of `process_video`
(resource acquisition, error handling and cleanup, lines 45-148) is embedded
as `process_video` over an environment describing the external world
(file-dialog result, whether the capture opens, the per-frame observations,
and whether the loop raises).
-/

namespace VehicleCounting

/-- Counting-line configuration: `line_position` and symmetric tolerance
`offset` (car_detection.py lines 73-74: `line_position = frame_height // 2`,
`offset = 10`). -/
structure CounterConfig where
  line_position : Int
  offset : Int
deriving DecidableEq

/-- Crossing-counter state: the set of already-counted track ids
(`counted_ids = set()`) and the running total (`total_count = 0`),
car_detection.py lines 75-76. -/
structure CounterState where
  counted_ids : Finset Nat
  total_count : Nat
deriving DecidableEq

/-- Fresh counter state at the start of a run. -/
def initState : CounterState := ⟨∅, 0⟩

/-- The band test of car_detection.py line 113:
`(line_position - offset) < cy < (line_position + offset)`. -/
def inBand (cfg : CounterConfig) (cy : Int) : Bool :=
  (cfg.line_position - cfg.offset < cy) && (cy < cfg.line_position + cfg.offset)

/-- One observation of a confirmed track (car_detection.py lines 112-117):
if the centroid is strictly inside the band and the id has not been counted,
the id is added to `counted_ids` and the total is incremented; the returned
Bool records whether this counting branch fired. -/
def observe (cfg : CounterConfig) (s : CounterState) (track_id : Nat)
    (cy : Int) : Bool × CounterState :=
  if inBand cfg cy then
    if track_id ∉ s.counted_ids then
      (true, ⟨insert track_id s.counted_ids, s.total_count + 1⟩)
    else
      (false, s)
  else
    (false, s)

/-- Folding `observe` over a sequence of (track_id, centroid_y) observations,
as the per-frame loop does across a run. -/
def runObserves (cfg : CounterConfig) (s : CounterState) :
    List (Nat × Int) → CounterState
  | [] => s
  | c :: rest => runObserves cfg (observe cfg s c.1 c.2).2 rest

/-- The distinct track ids of a call sequence whose centroid satisfied the
band condition on at least one call. -/
def bandIds (cfg : CounterConfig) (calls : List (Nat × Int)) : Finset Nat :=
  ((calls.filter fun c => inBand cfg c.2).map Prod.fst).toFinset

-- Sanity checks against spec Scenario A: band = (190, 210) i.e. cfg ⟨200, 10⟩,
-- id 1: y = 250 false, y = 205 true (total 1), y = 198 false (already counted).
example : (observe ⟨200, 10⟩ initState 1 250).1 = false := by decide
example : (observe ⟨200, 10⟩ initState 1 205).1 = true := by decide
example : (observe ⟨200, 10⟩ initState 1 205).2.total_count = 1 := by decide
example :
    (observe ⟨200, 10⟩ (observe ⟨200, 10⟩ initState 1 205).2 1 198).1 = false := by
  decide
example :
    (runObserves ⟨200, 10⟩ initState [(1, 250), (1, 205), (1, 198)]).total_count
      = 1 := by decide
-- Scenario B: two distinct ids crossing gives total 2.
example :
    (runObserves ⟨200, 10⟩ initState [(1, 205), (2, 199)]).total_count = 2 := by
  decide
example : bandIds ⟨200, 10⟩ [(1, 250), (1, 205), (1, 198)] = {1} := by decide

/-- The band test holds exactly when the centroid is strictly inside the open
interval. -/
lemma inBand_iff (cfg : CounterConfig) (cy : Int) :
    inBand cfg cy = true ↔
      cfg.line_position - cfg.offset < cy ∧ cy < cfg.line_position + cfg.offset := by
  simp [inBand]

/-- C1: an observe call returns true and increments the total by exactly one
iff the centroid lies strictly inside (line_position - offset,
line_position + offset) and the id is not already counted; on true the id is
added to the counted set, and otherwise the call returns false and leaves the
state unchanged. -/
theorem observe_true_iff_band_and_new (cfg : CounterConfig) (s : CounterState)
    (track_id : Nat) (cy : Int) :
    ((observe cfg s track_id cy).1 = true ↔
      (cfg.line_position - cfg.offset < cy ∧ cy < cfg.line_position + cfg.offset)
        ∧ track_id ∉ s.counted_ids)
    ∧ ((observe cfg s track_id cy).1 = true →
        (observe cfg s track_id cy).2.counted_ids = insert track_id s.counted_ids
          ∧ (observe cfg s track_id cy).2.total_count = s.total_count + 1)
    ∧ ((observe cfg s track_id cy).1 = false →
        (observe cfg s track_id cy).2 = s) := by
  unfold observe
  by_cases hb : inBand cfg cy
  · by_cases hm : track_id ∈ s.counted_ids
    · simp [hb, hm, inBand_iff cfg cy]
    · simp [hb, hm, (inBand_iff cfg cy).mp hb]
  · rw [inBand_iff] at hb
    simp [inBand_iff, hb]

/-- C1 witness: at cfg (200,10), fresh state, id 1, centroid 205 the counting
branch fires, adds the id, and increments the total. -/
theorem observe_true_iff_band_and_new_witness :
    (observe ⟨200, 10⟩ initState 1 205).1 = true
      ∧ (observe ⟨200, 10⟩ initState 1 205).2.counted_ids = insert 1 initState.counted_ids
      ∧ (observe ⟨200, 10⟩ initState 1 205).2.total_count = initState.total_count + 1 := by
  have h := observe_true_iff_band_and_new ⟨200, 10⟩ initState 1 205
  have ht : (observe ⟨200, 10⟩ initState 1 205).1 = true :=
    h.1.mpr ⟨by decide, by decide⟩
  exact ⟨ht, h.2.1 ht⟩

/-- C3: observing an id that is already counted, at any centroid inside the
band, returns false and leaves the total unchanged. -/
theorem observe_idempotent_on_counted (cfg : CounterConfig) (s : CounterState)
    (track_id : Nat) (cy : Int) (hmem : track_id ∈ s.counted_ids)
    (hband : cfg.line_position - cfg.offset < cy ∧ cy < cfg.line_position + cfg.offset) :
    (observe cfg s track_id cy).1 = false
      ∧ (observe cfg s track_id cy).2.total_count = s.total_count := by
  unfold observe
  simp [(inBand_iff cfg cy).mpr hband, hmem]

/-- C3 witness: id 1 already counted, centroid 300 inside the band of cfg
(300,10): observe returns false and keeps the total at 1. -/
theorem observe_idempotent_on_counted_witness :
    (observe ⟨300, 10⟩ ⟨{1}, 1⟩ 1 300).1 = false
      ∧ (observe ⟨300, 10⟩ ⟨{1}, 1⟩ 1 300).2.total_count = 1 :=
  observe_idempotent_on_counted ⟨300, 10⟩ ⟨{1}, 1⟩ 1 300 (by decide)
    ⟨by decide, by decide⟩

/-- An observe call never removes a counted id. -/
lemma observe_counted_subset (cfg : CounterConfig) (s : CounterState)
    (track_id : Nat) (cy : Int) :
    s.counted_ids ⊆ (observe cfg s track_id cy).2.counted_ids := by
  unfold observe
  split
  · split
    · exact Finset.subset_insert _ _
    · exact Finset.Subset.refl _
  · exact Finset.Subset.refl _

/-- An observe call never decreases the total. -/
lemma observe_total_le (cfg : CounterConfig) (s : CounterState)
    (track_id : Nat) (cy : Int) :
    s.total_count ≤ (observe cfg s track_id cy).2.total_count := by
  unfold observe
  split
  · split
    · exact Nat.le_succ _
    · exact Nat.le_refl _
  · exact Nat.le_refl _

/-- Running a sequence of observations never removes a counted id. -/
lemma runObserves_counted_subset (cfg : CounterConfig) :
    ∀ (calls : List (Nat × Int)) (s : CounterState),
      s.counted_ids ⊆ (runObserves cfg s calls).counted_ids
  | [], _ => Finset.Subset.refl _
  | c :: rest, s =>
      Finset.Subset.trans (observe_counted_subset cfg s c.1 c.2)
        (runObserves_counted_subset cfg rest (observe cfg s c.1 c.2).2)

/-- Running a sequence of observations never decreases the total. -/
lemma runObserves_total_le (cfg : CounterConfig) :
    ∀ (calls : List (Nat × Int)) (s : CounterState),
      s.total_count ≤ (runObserves cfg s calls).total_count
  | [], _ => Nat.le_refl _
  | c :: rest, s =>
      Nat.le_trans (observe_total_le cfg s c.1 c.2)
        (runObserves_total_le cfg rest (observe cfg s c.1 c.2).2)

/-- C4: the counter state only grows: across one observe call and across any
further sequence of calls, the counted set is a superset of what it was and
the total is monotonically non-decreasing. -/
theorem counter_state_monotone (cfg : CounterConfig) (s : CounterState)
    (track_id : Nat) (cy : Int) (calls : List (Nat × Int)) :
    s.counted_ids ⊆ (observe cfg s track_id cy).2.counted_ids
      ∧ s.total_count ≤ (observe cfg s track_id cy).2.total_count
      ∧ s.counted_ids ⊆ (runObserves cfg s calls).counted_ids
      ∧ s.total_count ≤ (runObserves cfg s calls).total_count :=
  ⟨observe_counted_subset cfg s track_id cy, observe_total_le cfg s track_id cy,
    runObserves_counted_subset cfg calls s, runObserves_total_le cfg calls s⟩

/-- C5: for a first-seen id the band boundaries are exclusive: observing at
line_position - offset or line_position + offset returns false, while
observing exactly at line_position returns true when the offset is positive. -/
theorem observe_boundary_exclusive (cfg : CounterConfig) (s : CounterState)
    (track_id : Nat) (hmem : track_id ∉ s.counted_ids) (hoff : 0 < cfg.offset) :
    (observe cfg s track_id (cfg.line_position - cfg.offset)).1 = false
      ∧ (observe cfg s track_id (cfg.line_position + cfg.offset)).1 = false
      ∧ (observe cfg s track_id cfg.line_position).1 = true := by
  refine ⟨?_, ?_, ?_⟩
  · unfold observe
    have hb : inBand cfg (cfg.line_position - cfg.offset) = false := by
      simp [inBand]
    simp [hb]
  · unfold observe
    have hb : inBand cfg (cfg.line_position + cfg.offset) = false := by
      simp [inBand]
    simp [hb]
  · unfold observe
    have hb : inBand cfg cfg.line_position = true := by
      simp [inBand]
      omega
    simp [hb, hmem]

/-- C5 witness: with cfg (300,10) and a fresh state, centroids 290 and 310
are not counted while 300 is. -/
theorem observe_boundary_exclusive_witness :
    (observe ⟨300, 10⟩ initState 1 290).1 = false
      ∧ (observe ⟨300, 10⟩ initState 1 310).1 = false
      ∧ (observe ⟨300, 10⟩ initState 1 300).1 = true := by
  have h := observe_boundary_exclusive ⟨300, 10⟩ initState 1 (by decide) (by decide)
  exact h

/-- C10: for distinct ids, two observe calls commute: either order produces
the same final counter state (same counted set and same total). -/
theorem observe_comm_distinct_ids (cfg : CounterConfig) (s : CounterState)
    (id1 id2 : Nat) (y1 y2 : Int) (hne : id1 ≠ id2) :
    (observe cfg (observe cfg s id1 y1).2 id2 y2).2
      = (observe cfg (observe cfg s id2 y2).2 id1 y1).2 := by
  unfold observe
  by_cases hb1 : inBand cfg y1
  · by_cases hb2 : inBand cfg y2
    · by_cases hm1 : id1 ∈ s.counted_ids
      · by_cases hm2 : id2 ∈ s.counted_ids
        · simp [hb1, hb2, hm1, hm2]
        · simp [hb1, hb2, hm1, hm2, Finset.mem_insert, hne.symm]
      · by_cases hm2 : id2 ∈ s.counted_ids
        · simp [hb1, hb2, hm1, hm2, Finset.mem_insert, hne]
        · simp [hb1, hb2, hm1, hm2, Finset.mem_insert, hne, hne.symm,
            Finset.Insert.comm]
    · simp [hb1, hb2]
  · by_cases hb2 : inBand cfg y2
    · simp [hb1, hb2]
    · simp [hb1, hb2]

/-- bandIds unfolds one call at a time. -/
lemma bandIds_cons (cfg : CounterConfig) (c : Nat × Int)
    (rest : List (Nat × Int)) :
    bandIds cfg (c :: rest)
      = if inBand cfg c.2 then insert c.1 (bandIds cfg rest)
        else bandIds cfg rest := by
  by_cases hb : inBand cfg c.2
  · simp [bandIds, List.filter_cons, hb]
  · simp [bandIds, List.filter_cons, hb]

/-- When the centroid is outside the band, observe leaves the state alone. -/
lemma observe_snd_of_notBand (cfg : CounterConfig) (s : CounterState)
    (track_id : Nat) (cy : Int) (hb : inBand cfg cy = false) :
    (observe cfg s track_id cy).2 = s := by
  unfold observe
  rw [if_neg (by simp [hb])]

/-- When the id is already counted, observe leaves the state alone. -/
lemma observe_snd_of_mem (cfg : CounterConfig) (s : CounterState)
    (track_id : Nat) (cy : Int) (hb : inBand cfg cy = true)
    (hm : track_id ∈ s.counted_ids) :
    (observe cfg s track_id cy).2 = s := by
  unfold observe
  rw [if_pos hb, if_neg (not_not_intro hm)]

/-- When the centroid is in the band and the id is new, observe inserts the
id and increments the total. -/
lemma observe_snd_of_new (cfg : CounterConfig) (s : CounterState)
    (track_id : Nat) (cy : Int) (hb : inBand cfg cy = true)
    (hm : track_id ∉ s.counted_ids) :
    (observe cfg s track_id cy).2
      = ⟨insert track_id s.counted_ids, s.total_count + 1⟩ := by
  unfold observe
  rw [if_pos hb, if_pos hm]

/-- A track id is counted after a run iff it was counted before or satisfied
the band condition on some call of the run. -/
lemma mem_runObserves_counted (cfg : CounterConfig) :
    ∀ (calls : List (Nat × Int)) (s : CounterState) (x : Nat),
      x ∈ (runObserves cfg s calls).counted_ids ↔
        x ∈ s.counted_ids ∨ x ∈ bandIds cfg calls := by
  intro calls
  induction calls with
  | nil => intro s x; simp [runObserves, bandIds]
  | cons c rest ih =>
      intro s x
      rw [runObserves, ih, bandIds_cons]
      by_cases hb : inBand cfg c.2
      · by_cases hm : c.1 ∈ s.counted_ids
        · rw [observe_snd_of_mem cfg s c.1 c.2 hb hm]
          simp only [hb, if_true, Finset.mem_insert]
          constructor
          · rintro (h | h)
            · exact Or.inl h
            · exact Or.inr (Or.inr h)
          · rintro (h | h | h)
            · exact Or.inl h
            · exact Or.inl (h ▸ hm)
            · exact Or.inr h
        · rw [observe_snd_of_new cfg s c.1 c.2 hb hm]
          simp only [hb, if_true, Finset.mem_insert]
          tauto
      · rw [observe_snd_of_notBand cfg s c.1 c.2 (by simp [hb])]
        simp [hb]

/-- A single observe call keeps the total equal to the size of the counted
set. -/
lemma observe_lockstep (cfg : CounterConfig) (s : CounterState)
    (track_id : Nat) (cy : Int)
    (h : s.total_count = s.counted_ids.card) :
    (observe cfg s track_id cy).2.total_count
      = (observe cfg s track_id cy).2.counted_ids.card := by
  unfold observe
  by_cases hb : inBand cfg cy
  · by_cases hm : track_id ∈ s.counted_ids
    · simp [hb, hm, h]
    · simp [hb, hm, h, Finset.card_insert_of_not_mem hm]
  · simp [hb, h]

/-- A run of observe calls keeps the total equal to the size of the counted
set. -/
lemma runObserves_lockstep (cfg : CounterConfig) :
    ∀ (calls : List (Nat × Int)) (s : CounterState),
      s.total_count = s.counted_ids.card →
        (runObserves cfg s calls).total_count
          = (runObserves cfg s calls).counted_ids.card
  | [], _, h => h
  | c :: rest, s, h =>
      runObserves_lockstep cfg rest (observe cfg s c.1 c.2).2
        (observe_lockstep cfg s c.1 c.2 h)

/-- From a fresh state, the counted set after a run is exactly the set of ids
that satisfied the band condition at least once. -/
lemma runObserves_counted_eq_bandIds (cfg : CounterConfig)
    (calls : List (Nat × Int)) :
    (runObserves cfg initState calls).counted_ids = bandIds cfg calls := by
  apply Finset.ext
  intro x
  rw [mem_runObserves_counted]
  simp [initState]

/-- C2: from a fresh counter, after any sequence of observe calls the total
equals the number of distinct track ids that satisfied the band condition on
at least one of their calls; each id contributes at most once. -/
theorem total_eq_card_bandIds (cfg : CounterConfig) (calls : List (Nat × Int)) :
    (runObserves cfg initState calls).total_count = (bandIds cfg calls).card := by
  rw [runObserves_lockstep cfg calls initState (by simp [initState]),
    runObserves_counted_eq_bandIds]

/-- C9: the total and the counted set are updated in lockstep: if the total
equals the size of the counted set before an observe call it still does after
it, and from a fresh counter this holds after every sequence of calls. -/
theorem total_eq_card_counted (cfg : CounterConfig) (s : CounterState)
    (track_id : Nat) (cy : Int)
    (h : s.total_count = s.counted_ids.card) :
    (observe cfg s track_id cy).2.total_count
        = (observe cfg s track_id cy).2.counted_ids.card
      ∧ ∀ calls : List (Nat × Int),
          (runObserves cfg initState calls).total_count
            = (runObserves cfg initState calls).counted_ids.card :=
  ⟨observe_lockstep cfg s track_id cy h,
    fun calls => runObserves_lockstep cfg calls initState (by simp [initState])⟩

/-- C9 witness: from the fresh state at cfg (200,10), observing id 1 at 205
gives total 1 and a counted set of size 1. -/
theorem total_eq_card_counted_witness :
    (observe ⟨200, 10⟩ initState 1 205).2.total_count
        = (observe ⟨200, 10⟩ initState 1 205).2.counted_ids.card
      ∧ (runObserves ⟨200, 10⟩ initState [(1, 205), (2, 199), (1, 198)]).total_count
          = (runObserves ⟨200, 10⟩ initState
              [(1, 205), (2, 199), (1, 198)]).counted_ids.card := by
  have h := total_eq_card_counted ⟨200, 10⟩ initState 1 205 (by decide)
  exact ⟨h.1, h.2 [(1, 205), (2, 199), (1, 198)]⟩

/-- C10 witness: ids 1 and 2 both inside the band of cfg (200,10) from the
fresh state: both orders give the same state. -/
theorem observe_comm_distinct_ids_witness :
    (observe ⟨200, 10⟩ (observe ⟨200, 10⟩ initState 1 205).2 2 199).2
      = (observe ⟨200, 10⟩ (observe ⟨200, 10⟩ initState 2 199).2 1 205).2 :=
  observe_comm_distinct_ids ⟨200, 10⟩ initState 1 2 205 199 (by decide)

/-- Truncation toward zero, the behaviour of Python int() on the numeric
values of the detection tuple. -/
def pyInt (q : ℚ) : Int := if q < 0 then ⌈q⌉ else ⌊q⌋

/-- One row of `results.boxes.data.tolist()` (car_detection.py line 95-96):
`x1, y1, x2, y2, score, class_id`, all numeric. -/
structure RawDetection where
  x1 : ℚ
  y1 : ℚ
  x2 : ℚ
  y2 : ℚ
  score : ℚ
  class_id : ℚ
deriving DecidableEq

/-- A detection as appended to the list forwarded to the tracker
(car_detection.py line 98): `([x1, y1, x2 - x1, y2 - y1], score,
int(class_id))`. -/
structure Detection where
  x : ℚ
  y : ℚ
  w : ℚ
  h : ℚ
  score : ℚ
  class_id : Int
deriving DecidableEq

/-- The tuple transformation of car_detection.py line 98. -/
def toDetection (r : RawDetection) : Detection :=
  ⟨r.x1, r.y1, r.x2 - r.x1, r.y2 - r.y1, r.score, pyInt r.class_id⟩

/-- The vehicle class allow-list of car_detection.py line 97:
`[2, 3, 5, 7]`. -/
def vehicle_classes : List Int := [2, 3, 5, 7]

/-- The filter loop of car_detection.py lines 95-98: a raw detection is kept
when `int(class_id) in [2, 3, 5, 7] and score > 0.4`. -/
def buildDetections : List RawDetection → List Detection
  | [] => []
  | r :: rest =>
      if pyInt r.class_id ∈ vehicle_classes ∧ (0.4 : ℚ) < r.score then
        toDetection r :: buildDetections rest
      else
        buildDetections rest

/-- Stated from the claim: a detection is forwarded to the tracker iff its
class id is one of {2, 3, 5, 7} and its confidence score is above the fixed
minimum confidence threshold 0.4 (the code compares strictly). -/
def forwardedToTracker (classId : Int) (score : ℚ) : Prop :=
  classId ∈ ({2, 3, 5, 7} : Finset Int) ∧ (0.4 : ℚ) < score

instance (classId : Int) (score : ℚ) : Decidable (forwardedToTracker classId score) := by
  unfold forwardedToTracker
  infer_instance

-- Sanity checks: a car (class 2) with score 0.9 is kept, score 0.4 exactly
-- and a person (class 0) are dropped.
example :
    buildDetections [⟨0, 0, 10, 10, 9/10, 2⟩]
      = [⟨0, 0, 10, 10, 9/10, 2⟩] := by
  have hp : pyInt 2 = 2 := by norm_num [pyInt]
  simp [buildDetections, toDetection, hp, vehicle_classes]
  norm_num
example : buildDetections [⟨0, 0, 10, 10, 2/5, 2⟩] = [] := by
  have hp : pyInt 2 = 2 := by norm_num [pyInt]
  simp [buildDetections, toDetection, hp, vehicle_classes]
  norm_num
example : buildDetections [⟨0, 0, 10, 10, 9/10, 0⟩] = [] := by
  norm_num [buildDetections, toDetection, pyInt, vehicle_classes]

/-- C6: the per-frame filter loop forwards exactly the detections whose class
id is in {2, 3, 5, 7} and whose confidence score exceeds the 0.4 threshold:
the list handed to the tracker is the filter of the raw results by that
predicate, with each kept tuple transformed to (left, top, width, height,
score, class id) form. -/
theorem buildDetections_eq_filter (rs : List RawDetection) :
    buildDetections rs
      = (rs.filter fun r =>
          decide (forwardedToTracker (pyInt r.class_id) r.score)).map toDetection := by
  induction rs with
  | nil => rfl
  | cons r rest ih =>
      rw [buildDetections, List.filter_cons]
      by_cases hk : pyInt r.class_id ∈ vehicle_classes ∧ (0.4 : ℚ) < r.score
      · have hf : forwardedToTracker (pyInt r.class_id) r.score := by
          rcases hk with ⟨hc, hs⟩
          refine ⟨?_, hs⟩
          simpa [vehicle_classes] using hc
        rw [if_pos hk]
        simp [hf, ih]
      · have hf : ¬ forwardedToTracker (pyInt r.class_id) r.score := by
          intro hcon
          rcases hcon with ⟨hc, hs⟩
          exact hk ⟨by simpa [vehicle_classes] using hc, hs⟩
        rw [if_neg hk]
        simp [hf, ih]

/-- The environment a run of `process_video` sees: the file-dialog result
(empty string when the user selects nothing, the falsy case of
car_detection.py line 21), whether the capture opens (line 61), the frame
height, the per-frame (track id, centroid) observations of confirmed tracks,
and an optional exception raised during the per-frame loop (frame index at
which it is raised, and its message). -/
structure PVEnv where
  video_path : String
  cap_opens : Bool
  frame_height : Nat
  frames : List (List (Nat × Int))
  loop_fail : Option (Nat × String)
deriving DecidableEq

/-- What a run of `process_video` did: which resources were created and
opened, how many frames were processed, which resources were released before
the run returned or re-raised, and the outcome (the `(total_count,
output_path)` pair of line 138, or the exception surfaced by the bare
`raise` of line 148). -/
structure PVOutcome where
  model_loaded : Bool
  tracker_started : Bool
  cap_acquired : Bool
  cap_opened : Bool
  out_acquired : Bool
  frames_processed : Nat
  cap_released : Bool
  out_released : Bool
  windows_destroyed : Bool
  result : Except String (Nat × String)

/-- car_detection.py lines 13-23: the file dialog returns a path; an empty
(falsy) result raises `ValueError("No video file selected")`. -/
def select_video (video_path : String) : Except String String :=
  if video_path = "" then Except.error "No video file selected"
  else Except.ok video_path

/-- car_detection.py line 28: `video_path.rsplit('.', 1)[0] +
'_processed.mp4'`. -/
def output_path_of (video_path : String) : String :=
  let parts := video_path.splitOn "."
  (if parts.length ≤ 1 then video_path
   else String.intercalate "." parts.dropLast) ++ "_processed.mp4"

/-- The counting-line configuration of car_detection.py lines 73-74:
`line_position = frame_height // 2`, `offset = 10`. -/
def frameCfg (frame_height : Nat) : CounterConfig :=
  ⟨((frame_height / 2 : Nat) : Int), 10⟩

/-- The control flow of `process_video` (car_detection.py lines 45-148) over
an environment. The try-block runs select_video, loads the model, starts the
tracker, creates the capture, raises if it is not opened, creates the writer,
then runs the per-frame loop (embedded here as the fold of `observe` over the
confirmed-track observations); the except-block releases `cap` and `out`
exactly when they are in `locals()`, destroys the display windows, and
re-raises the exception. -/
def process_video (env : PVEnv) : PVOutcome :=
  match select_video env.video_path with
  | Except.error e =>
      -- select_video raised before the model, tracker, capture or writer
      -- existed: nothing to release, windows destroyed, error re-raised.
      { model_loaded := false, tracker_started := false, cap_acquired := false,
        cap_opened := false, out_acquired := false, frames_processed := 0,
        cap_released := false, out_released := false, windows_destroyed := true,
        result := Except.error e }
  | Except.ok path =>
      if env.cap_opens then
        match env.loop_fail with
        | some ke =>
            -- exception inside the per-frame loop: cap and out are in
            -- locals, both released, windows destroyed, error re-raised.
            { model_loaded := true, tracker_started := true,
              cap_acquired := true, cap_opened := true, out_acquired := true,
              frames_processed := min ke.1 env.frames.length,
              cap_released := true, out_released := true,
              windows_destroyed := true, result := Except.error ke.2 }
        | none =>
            -- normal completion: loop processes every frame, cleanup runs,
            -- (total_count, output_path) returned.
            { model_loaded := true, tracker_started := true,
              cap_acquired := true, cap_opened := true, out_acquired := true,
              frames_processed := env.frames.length,
              cap_released := true, out_released := true,
              windows_destroyed := true,
              result := Except.ok
                ((runObserves (frameCfg env.frame_height) initState
                    env.frames.flatten).total_count,
                  output_path_of path) }
      else
        -- `cap.isOpened()` false: ValueError raised before the writer was
        -- created; `cap` is in locals and released, windows destroyed.
        { model_loaded := true, tracker_started := true, cap_acquired := true,
          cap_opened := false, out_acquired := false, frames_processed := 0,
          cap_released := true, out_released := false,
          windows_destroyed := true,
          result := Except.error ("Could not open video file: " ++ path) }

-- Sanity checks on the control flow.
example : (process_video ⟨"", true, 480, [], none⟩).result
    = Except.error "No video file selected" := rfl
example : (process_video ⟨"a.mp4", false, 480, [], none⟩).result
    = Except.error ("Could not open video file: " ++ "a.mp4") := rfl
example :
    (process_video ⟨"a.mp4", true, 480, [[(1, 240)]], none⟩).result.toOption.map
      Prod.fst = some 1 := rfl

/-- C7: on every exit of a run, normal or failing, each resource that was
acquired is released before the run returns or re-raises: the capture, the
writer and the display windows; and a failure in the per-frame loop is
surfaced to the caller as that same error, never swallowed. -/
theorem process_video_releases_resources (env : PVEnv) :
    ((process_video env).cap_acquired = true →
        (process_video env).cap_released = true)
      ∧ ((process_video env).out_acquired = true →
          (process_video env).out_released = true)
      ∧ (process_video env).windows_destroyed = true
      ∧ (∀ k e, env.loop_fail = some (k, e) → env.video_path ≠ "" →
          env.cap_opens = true →
          (process_video env).result = Except.error e) := by
  unfold process_video select_video
  by_cases hp : env.video_path = ""
  · simp [hp]
  · rcases hco : env.cap_opens with _ | _
    · simp [hp, hco]
    · rcases hlf : env.loop_fail with _ | ⟨k, e⟩
      · simp [hp, hco, hlf]
      · simp [hp, hco, hlf]

/-- C7 witness: a run on path v.mp4 whose loop raises at frame 0 releases the
capture and the writer, destroys the windows, and re-raises the error. -/
theorem process_video_releases_resources_witness :
    (process_video ⟨"v.mp4", true, 480, [[(1, 240)]], some (0, "boom")⟩).cap_released
        = true
      ∧ (process_video ⟨"v.mp4", true, 480, [[(1, 240)]],
          some (0, "boom")⟩).out_released = true
      ∧ (process_video ⟨"v.mp4", true, 480, [[(1, 240)]],
          some (0, "boom")⟩).windows_destroyed = true
      ∧ (process_video ⟨"v.mp4", true, 480, [[(1, 240)]],
          some (0, "boom")⟩).result = Except.error "boom" := by
  have h := process_video_releases_resources
    ⟨"v.mp4", true, 480, [[(1, 240)]], some (0, "boom")⟩
  exact ⟨h.1 (by decide), h.2.1 (by decide), h.2.2.1,
    h.2.2.2 0 "boom" rfl (by decide) rfl⟩

/-- C8: an empty selection fails with an error before the model, the tracker,
the capture or the writer is opened and before any frame is processed; a
selection whose capture cannot be opened also fails fatally before the writer
is created and before any frame is processed. -/
theorem process_video_aborts_early (env : PVEnv) :
    (env.video_path = "" →
        (process_video env).result = Except.error "No video file selected"
          ∧ (process_video env).model_loaded = false
          ∧ (process_video env).tracker_started = false
          ∧ (process_video env).cap_acquired = false
          ∧ (process_video env).out_acquired = false
          ∧ (process_video env).frames_processed = 0)
      ∧ (env.video_path ≠ "" → env.cap_opens = false →
          (process_video env).result
              = Except.error ("Could not open video file: " ++ env.video_path)
            ∧ (process_video env).out_acquired = false
            ∧ (process_video env).frames_processed = 0) := by
  unfold process_video select_video
  by_cases hp : env.video_path = ""
  · simp [hp]
  · rcases hco : env.cap_opens with _ | _
    · simp [hp, hco]
    · simp [hp, hco]

/-- C8 witness: the empty selection aborts before anything is opened, and a
selection that does not open aborts before the writer exists and before any
frame is processed. -/
theorem process_video_aborts_early_witness :
    ((process_video ⟨"", true, 480, [], none⟩).result
          = Except.error "No video file selected"
        ∧ (process_video ⟨"", true, 480, [], none⟩).model_loaded = false
        ∧ (process_video ⟨"", true, 480, [], none⟩).cap_acquired = false)
      ∧ ((process_video ⟨"a.mp4", false, 480, [], none⟩).result
            = Except.error "Could not open video file: a.mp4"
          ∧ (process_video ⟨"a.mp4", false, 480, [], none⟩).frames_processed
              = 0) := by
  have h1 := (process_video_aborts_early ⟨"", true, 480, [], none⟩).1 rfl
  have h2 := (process_video_aborts_early ⟨"a.mp4", false, 480, [], none⟩).2
    (by decide) rfl
  exact ⟨⟨h1.1, h1.2.1, h1.2.2.2.1⟩, ⟨h2.1, h2.2.2⟩⟩

end VehicleCounting
